import Mathlib

/-!
Shallow embedding of the ERF Expeditor email-automation core
(`src/data/excel_processor.py`, `src/utils/email_resolver.py`,
`src/email/email_service.py`, `src/services/automation_service.py`,
`config/settings.py`) and proofs about it.

Cells and identifiers are modelled as Lean `String`s (the Python code
applies `str(...)` before every comparison that matters); a missing /
NaN cell is `Option.none`.  External collaborators (the spreadsheet
reader, the Outlook transport, the HTML template) are parameters.
-/

set_option maxRecDepth 4000

/-! ### Python string primitives used by the code -/

/-- Characters stripped by Python's `str.strip()` (ASCII whitespace). -/
def pyIsSpace (c : Char) : Bool :=
  c = ' ' || c = '\t' || c = '\n' || c = '\r' || c = '\x0b' || c = '\x0c'

/-- Python `str.strip()`. -/
def pyStrip (s : String) : String :=
  ⟨((s.data.dropWhile pyIsSpace).reverse.dropWhile pyIsSpace).reverse⟩

/-- Python `str.upper()` (ASCII range, as used by the identifiers here). -/
def pyUpper (s : String) : String := ⟨s.data.map Char.toUpper⟩

/-- Python `str.lower()` (ASCII range). -/
def pyLower (s : String) : String := ⟨s.data.map Char.toLower⟩

/-- `lStarts p l`: `p` is a prefix of `l`. -/
def lStarts : List Char → List Char → Bool
  | [], _ => true
  | _ :: _, [] => false
  | a :: as, b :: bs => a == b && lStarts as bs

/-- `lHasSub p l`: `p` occurs as a contiguous sublist of `l`. -/
def lHasSub (p : List Char) : List Char → Bool
  | [] => p.isEmpty
  | b :: bs => lStarts p (b :: bs) || lHasSub p bs

/-- Python's substring test `needle in hay`. -/
def pyIn (needle hay : String) : Bool := lHasSub needle.data hay.data

/-- `str(username).strip().upper()` — the resolver's normalization. -/
def pyNorm (s : String) : String := pyUpper (pyStrip s)

/-- Python's `' '.join(...)` at the character level. -/
def joinChars : List (List Char) → List Char
  | [] => []
  | [c] => c
  | c :: c2 :: rest => c ++ ' ' :: joinChars (c2 :: rest)

theorem lStarts_iff : ∀ (p l : List Char), lStarts p l = true ↔ p <+: l := by
  intro p
  induction p with
  | nil => intro l; simp [lStarts]
  | cons a as ih =>
    intro l
    cases l with
    | nil => simp [lStarts]
    | cons b bs =>
      simp [lStarts, List.cons_prefix_cons, ih bs, And.comm]

theorem lHasSub_iff (p : List Char) : ∀ (l : List Char), lHasSub p l = true ↔ p <:+: l := by
  intro l
  induction l with
  | nil => simp [lHasSub, List.isEmpty_iff]
  | cons b bs ih =>
    simp [lHasSub, lStarts_iff, ih, List.infix_cons_iff]

/-- Every member of a `' '.join`ed list occurs inside the joined result. -/
theorem mem_joinChars_infix {c : List Char} :
    ∀ {cs : List (List Char)}, c ∈ cs → c <:+: joinChars cs := by
  intro cs
  induction cs with
  | nil => intro h; cases h
  | cons d rest ih =>
    intro h
    cases rest with
    | nil =>
      rcases List.mem_cons.1 h with rfl | h2
      · exact List.infix_refl c
      · cases h2
    | cons d2 rest2 =>
      rcases List.mem_cons.1 h with rfl | h2
      · exact ((List.prefix_append c (' ' :: joinChars (d2 :: rest2)))).isInfix
      · have h3 : c <:+: joinChars (d2 :: rest2) := ih h2
        have h4 : joinChars (d2 :: rest2) <:+: joinChars (d :: d2 :: rest2) := by
          show joinChars (d2 :: rest2) <:+: d ++ ' ' :: joinChars (d2 :: rest2)
          exact ((List.suffix_cons ' ' _).trans (List.suffix_append d _)).isInfix
        exact h3.trans h4

/-! ### Configuration (`config/settings.py`) -/

/-- `Config.REQUIRED_COLUMNS`. -/
def REQUIRED_COLUMNS : List String :=
  ["Plnt", "Ship-To-Plant", "ERF Nr", "Item", "Entered by",
   "Material", "Material Description", "Unit", "ERF Itm Qty",
   "ERF Sched Line Status", "END", "PO Due Date", "Expeditor",
   "Expeditor Status", "Expeditor Remarks"]

/-- `Config.TARGET_STATUSES`. -/
def TARGET_STATUSES : List String := ["On order", "Received"]

/-! ### Sheet model and selection (`src/data/excel_processor.py`) -/

/-- A cell read from a sheet: `none` is pandas NaN, `some v` the cell's
`str(...)` rendering. -/
abbrev Cell := Option String

/-- One sheet of the workbook: its name, header (column names) and data
rows (each row lists the cells of the columns in order). -/
structure Sheet where
  name : String
  columns : List String
  rows : List (List Cell)
deriving DecidableEq, Repr

/-- `str(df.iloc[i,j]).lower()` of a cell; `str(nan)` is `"nan"`. -/
def cellLower (c : Cell) : String :=
  match c with
  | none => "nan"
  | some v => pyLower v

/-- `'Unnamed:' in str(col)`. -/
def isUnnamedCol (col : String) : Bool := pyIn "Unnamed:" col

/-- Number of unnamed columns (`_is_real_pivot_table`, first check). -/
def unnamedCount (s : Sheet) : Nat := s.columns.countP isUnnamedCol

/-- `df.iloc[0].isna().sum()` — NaN cells of the first data row. -/
def firstRowNaCount (s : Sheet) : Nat := (s.rows.headD []).countP Option.isNone

/-- The `first_few_cells` window: rows `0..min(5,nrows)`, columns
`0..min(5,ncols)`, row-major, each cell lowercased. -/
def windowCells (s : Sheet) : List String :=
  ((s.rows.take 5).map fun r => (r.take (min 5 s.columns.length)).map cellLower).flatten

/-- `cell_text = ' '.join(first_few_cells)`. -/
def cellText (s : Sheet) : String := ⟨joinChars ((windowCells s).map String.data)⟩

/-- `pivot_indicators` from `_is_real_pivot_table`. -/
def pivot_indicators : List String :=
  ["column labels", "row labels", "count of", "sum of", "grand total"]

/-- The marker criterion as the code applies it: a marker phrase occurs
in the space-joined window text. -/
def markerHit (s : Sheet) : Bool :=
  pivot_indicators.any fun ind => pyIn ind (cellText s)

/-- `ExcelProcessor._is_real_pivot_table`.  The 0.7/0.8 thresholds are
modelled as exact rational comparisons (`10*k > 7*n`, `10*k > 8*n`). -/
def is_real_pivot_table (s : Sheet) : Bool :=
  if s.rows.length < 3 then false
  else if 10 * unnamedCount s > 7 * s.columns.length then true
  else if 10 * firstRowNaCount s > 8 * s.columns.length then true
  else markerHit s

/-- `ExcelProcessor._score_sheet`. -/
def scoreSheet (s : Sheet) : Nat :=
  REQUIRED_COLUMNS.countP fun c => (s.columns.map pyStrip).contains c

/-- `df.empty` (a sheet with no data rows, or no columns at all). -/
def sheetEmpty (s : Sheet) : Bool := s.rows.isEmpty || s.columns.isEmpty

/-- Both mandatory columns present verbatim. -/
def hasMandatory (s : Sheet) : Bool :=
  s.columns.contains "ERF Sched Line Status" && s.columns.contains "Entered by"

/-- A sheet that survives all three skip checks of `find_data_sheet`. -/
def eligibleSheet (s : Sheet) : Bool :=
  !sheetEmpty s && hasMandatory s && !is_real_pivot_table s

/-- The selection loop of `ExcelProcessor.find_data_sheet`: walk the
sheets in workbook order keeping `best_sheet` / `best_score`
(`best_score` starts at 0, replacement only on a strictly larger score). -/
def findLoop : List Sheet → Option Sheet → Nat → Option Sheet
  | [], best, _ => best
  | s :: rest, best, bestScore =>
    if eligibleSheet s && bestScore < scoreSheet s then
      findLoop rest (some s) (scoreSheet s)
    else
      findLoop rest best bestScore

/-- `ExcelProcessor.find_data_sheet` (returns the selected sheet, or
`none` when no sheet qualifies). -/
def find_data_sheet (ws : List Sheet) : Option Sheet := findLoop ws none 0

/-- Spec-side selector, following the spec's words: among the eligible
sheets, the highest-scoring one, ties keeping the first in workbook
order (`List.argmax` returns the first maximizer), `none` if none
qualifies. -/
def selectSpec (ws : List Sheet) : Option Sheet :=
  (ws.filter eligibleSheet).argmax scoreSheet

/-- The marker criterion as the spec's claim words it: some single cell
of the window contains a marker phrase. -/
def markerHitSpec (s : Sheet) : Bool :=
  (windowCells s).any fun c => pivot_indicators.any fun ind => pyIn ind c

/-- An eligible sheet scores at least 1: `'Entered by'` is both mandatory
and on the scored column list. -/
theorem eligible_score_pos {s : Sheet} (h : eligibleSheet s = true) :
    0 < scoreSheet s := by
  have hmem : "Entered by" ∈ s.columns := by
    simp only [eligibleSheet, hasMandatory, Bool.and_eq_true, Bool.not_eq_true'] at h
    exact List.elem_iff.1 h.1.2.2
  have hstrip : "Entered by" ∈ s.columns.map pyStrip := by
    have hs : pyStrip "Entered by" = "Entered by" := by decide
    exact hs ▸ List.mem_map_of_mem pyStrip hmem
  refine List.countP_pos_iff.2 ⟨"Entered by", by decide, ?_⟩
  exact List.elem_iff.2 hstrip

theorem findLoop_some :
    ∀ (ws : List Sheet) (c : Sheet),
      findLoop ws (some c) (scoreSheet c) =
        (ws.filter eligibleSheet).foldl
          (List.argAux fun b c => scoreSheet c < scoreSheet b) (some c) := by
  intro ws
  induction ws with
  | nil => intro c; rfl
  | cons s rest ih =>
    intro c
    cases he : eligibleSheet s with
    | false => simp [findLoop, he, ih]
    | true =>
      by_cases hlt : scoreSheet c < scoreSheet s
      · simp [findLoop, he, hlt, List.argAux, ih]
      · simp [findLoop, he, hlt, List.argAux, ih]

theorem findLoop_none (ws : List Sheet) :
    findLoop ws none 0 =
      (ws.filter eligibleSheet).foldl
        (List.argAux fun b c => scoreSheet c < scoreSheet b) none := by
  induction ws with
  | nil => rfl
  | cons s rest ih =>
    cases he : eligibleSheet s with
    | false => simp [findLoop, he, ih]
    | true =>
      have hpos : 0 < scoreSheet s := eligible_score_pos he
      simp [findLoop, he, hpos, List.argAux, findLoop_some]

/-- C3: the selector returns the eligible (non-empty, non-pivot, both
mandatory columns present) sheet with the highest score; on a tie the
first such sheet in workbook order is kept (`List.argmax` keeps the
first maximizer), and `none` is returned when no sheet qualifies. -/
theorem find_data_sheet_selects_best (ws : List Sheet) :
    find_data_sheet ws = selectSpec ws := by
  rw [find_data_sheet, selectSpec, List.argmax, findLoop_none]

/-- A one-row sheet whose only first-row cell is empty (NaN). -/
def sheetOneEmptyRow : Sheet := ⟨"Sheet1", ["A"], [[none]]⟩

/-- C4 counterexample: a sheet with one column whose entire first row is
empty, but with fewer than 3 rows, is NOT classified as a pivot table
(`_is_real_pivot_table` returns `False` whenever `len(df) < 3`). -/
theorem pivot_small_sheet_counterexample :
    (∀ c ∈ sheetOneEmptyRow.rows.headD [], c = none) ∧
      sheetOneEmptyRow.columns ≠ [] ∧
      is_real_pivot_table sheetOneEmptyRow = false := by
  decide

/-- C4 amended: for every sheet with at least one column and at least
3 rows, if every cell of the first row is empty the classifier
classifies the sheet as a pivot/summary sheet, regardless of column
scoring. -/
theorem pivot_of_all_empty_first_row (s : Sheet)
    (h3 : 3 ≤ s.rows.length)
    (hc : s.columns ≠ [])
    (hw : (s.rows.headD []).length = s.columns.length)
    (he : ∀ c ∈ s.rows.headD [], c = none) :
    is_real_pivot_table s = true := by
  have hna : firstRowNaCount s = s.columns.length := by
    rw [firstRowNaCount, ← hw]
    exact List.countP_eq_length.2 fun c hc => by
      rw [he c hc]; rfl
  have hcol : 0 < s.columns.length := List.length_pos.2 hc
  rw [is_real_pivot_table, if_neg (by omega)]
  by_cases hu : 10 * unnamedCount s > 7 * s.columns.length
  · rw [if_pos hu]
  · rw [if_neg hu, if_pos (by omega)]

/-- A 3-row, 1-column sheet with an all-empty first row. -/
def sheetEmptyFirstRow3 : Sheet := ⟨"Pivot", ["A"], [[none], [some "1"], [some "2"]]⟩

/-- Witness for the amended C4 theorem at a concrete sheet. -/
theorem pivot_of_all_empty_first_row_witness :
    is_real_pivot_table sheetEmptyFirstRow3 = true :=
  pivot_of_all_empty_first_row sheetEmptyFirstRow3 (by decide) (by decide)
    (by decide) (by decide)

/-- A sheet whose first data row splits the marker phrase "grand total"
across two adjacent cells. -/
def sheetSplitMarker : Sheet :=
  ⟨"Sheet1", ["A", "B"],
   [[some "grand", some "total"], [some "x", some "y"], [some "x", some "y"]]⟩

/-- C5 counterexample: the sheet is classified as a pivot table through
the marker criterion, although no single cell of the 5×5 window
contains a marker phrase — the phrase "grand total" is split across two
adjacent cells and still matches, because the code joins the window
cells with spaces before the substring test. -/
theorem marker_split_cells_counterexample :
    is_real_pivot_table sheetSplitMarker = true ∧
      markerHit sheetSplitMarker = true ∧
      markerHitSpec sheetSplitMarker = false := by
  decide

/-- C5 amended: for sheets that reach the marker check (at least 3 rows,
unnamed-column and empty-first-row checks not triggered), the pivot
classification holds exactly when the space-joined concatenation of the
first 5×5 cells (row-major) contains a marker phrase as a substring; a
phrase contained in a single window cell always triggers it, and so do
phrases split across cells adjacent in that concatenation. -/
theorem pivot_marker_joined_text (s : Sheet)
    (h3 : 3 ≤ s.rows.length)
    (hu : 10 * unnamedCount s ≤ 7 * s.columns.length)
    (hn : 10 * firstRowNaCount s ≤ 8 * s.columns.length) :
    is_real_pivot_table s = markerHit s ∧
      (markerHitSpec s = true → markerHit s = true) := by
  constructor
  · rw [is_real_pivot_table, if_neg (by omega), if_neg (by omega), if_neg (by omega)]
  · intro h
    obtain ⟨c, hcmem, hind⟩ := List.any_eq_true.1 h
    obtain ⟨ind, himem, hsub⟩ := List.any_eq_true.1 hind
    refine List.any_eq_true.2 ⟨ind, himem, ?_⟩
    have h1 : ind.data <:+: c.data := (lHasSub_iff _ _).1 hsub
    have h2 : c.data <:+: joinChars ((windowCells s).map String.data) :=
      mem_joinChars_infix (List.mem_map_of_mem String.data hcmem)
    exact (lHasSub_iff _ _).2 (h1.trans h2)

/-- Witness for the amended C5 theorem at a concrete sheet. -/
theorem pivot_marker_joined_text_witness :
    is_real_pivot_table sheetSplitMarker = markerHit sheetSplitMarker ∧
      (markerHitSpec sheetSplitMarker = true → markerHit sheetSplitMarker = true) :=
  pivot_marker_joined_text sheetSplitMarker (by decide) (by decide) (by decide)

/-! ### Rows, filtering and grouping (`src/data/excel_processor.py`) -/

/-- A data row of the selected sheet, restricted to the two fields the
filter and the grouper read; `idx` keeps the row's identity. -/
structure Row where
  idx : Nat
  status : Cell
  entered_by : Cell
deriving DecidableEq, Repr

/-- `raw_data['ERF Sched Line Status'].isin(Config.TARGET_STATUSES)` for
one row: exact, case-sensitive, untrimmed comparison; NaN never matches. -/
def statusMatches (r : Row) : Bool :=
  match r.status with
  | some s => TARGET_STATUSES.contains s
  | none => false

/-- `ExcelProcessor.filter_data` — the rows surviving the status filter. -/
def filter_data (rows : List Row) : List Row := rows.filter statusMatches

/-- A row surviving `dropna(subset=['Entered by'])` followed by
`str.strip() != ''`. -/
def validKey (r : Row) : Bool :=
  match r.entered_by with
  | some s => pyStrip s != ""
  | none => false

/-- The grouping key (the row's raw, untrimmed `Entered by` value). -/
def keyOf (r : Row) : String := r.entered_by.getD ""

/-- `clean_data` in `group_by_requester`. -/
def cleanRows (rows : List Row) : List Row := rows.filter validKey

/-- Distinct values of a list in first-occurrence order. -/
def firstOccAux : List String → List String → List String
  | [], _ => []
  | k :: ks, seen =>
    if seen.contains k then firstOccAux ks seen
    else k :: firstOccAux ks (k :: seen)

/-- Distinct keys in the order of their first occurrence. -/
def firstOcc (ks : List String) : List String := firstOccAux ks []

/-- Lexicographic comparison of char lists (Python string `<=`,
pandas' group-key sort order). -/
def charListLe : List Char → List Char → Bool
  | [], _ => true
  | _ :: _, [] => false
  | a :: as, b :: bs => if a < b then true else if b < a then false else charListLe as bs

/-- Python string `<=` by code points. -/
def strLe (a b : String) : Bool := charListLe a.data b.data

/-- Insertion into a `strLe`-sorted list. -/
def insertKey (x : String) : List String → List String
  | [] => [x]
  | a :: as => if strLe x a then x :: a :: as else a :: insertKey x as

/-- Insertion sort by `strLe` — the ascending key order produced by
pandas `groupby(..., sort=True)`. -/
def sortKeys : List String → List String
  | [] => []
  | k :: ks => insertKey k (sortKeys ks)

/-- `ExcelProcessor.group_by_requester` composed with
`get_grouped_data`: drops blank-key rows, fails on zero survivors, and
returns one `(key, rows)` group per distinct key.  pandas `groupby`
sorts the group keys (default `sort=True`), so the groups come out in
ascending key order; each group keeps its rows in input order. -/
def group_by_requester (rows : List Row) : Option (List (String × List Row)) :=
  let clean := cleanRows rows
  if clean.isEmpty then none
  else some ((sortKeys (firstOcc (clean.map keyOf))).map
    fun k => (k, clean.filter fun r => keyOf r == k))

/-- Spec-side grouper, following the spec's words: identical except that
the groups appear in first-occurrence order of their keys. -/
def group_by_requester_firstOccOrder (rows : List Row) :
    Option (List (String × List Row)) :=
  let clean := cleanRows rows
  if clean.isEmpty then none
  else some ((firstOcc (clean.map keyOf)).map
    fun k => (k, clean.filter fun r => keyOf r == k))

/-- Bool sortedness of adjacent keys. -/
def sortedB : List String → Bool
  | [] => true
  | [_] => true
  | a :: b :: rest => strLe a b && sortedB (b :: rest)

theorem charListLe_total : ∀ a b : List Char,
    charListLe a b = true ∨ charListLe b a = true := by
  intro a
  induction a with
  | nil => intro b; exact Or.inl rfl
  | cons x xs ih =>
    intro b
    cases b with
    | nil => exact Or.inr rfl
    | cons y ys =>
      by_cases hxy : x < y
      · left; simp [charListLe, hxy]
      · by_cases hyx : y < x
        · right; simp [charListLe, hyx, hxy]
        · rcases ih ys with h | h
          · left; simp [charListLe, hxy, hyx, h]
          · right; simp [charListLe, hxy, hyx, h]

theorem strLe_total (a b : String) : strLe a b = true ∨ strLe b a = true :=
  charListLe_total a.data b.data

theorem insertKey_sorted (x : String) :
    ∀ l : List String, sortedB l = true → sortedB (insertKey x l) = true := by
  intro l
  induction l with
  | nil => intro h; rfl
  | cons a as ih =>
    intro h
    by_cases hxa : strLe x a = true
    · have h2 : sortedB (x :: a :: as) = true := by
        simp only [sortedB, hxa, Bool.true_and]; exact h
      simpa [insertKey, hxa] using h2
    · have hax : strLe a x = true := (strLe_total x a).resolve_left hxa
      cases as with
      | nil => simp [insertKey, hxa, sortedB, hax]
      | cons b bs =>
        simp only [sortedB, Bool.and_eq_true] at h
        obtain ⟨hab, hsbs⟩ := h
        by_cases hxb : strLe x b = true
        · simp [insertKey, hxa, hxb, sortedB, hax, hab, hxb, hsbs]
        · have h3 : sortedB (insertKey x (b :: bs)) = true := ih hsbs
          simp only [insertKey, hxb, if_neg] at h3
          simp only [insertKey, hxa, if_neg, hxb, ite_false]
          simp only [sortedB, hab, Bool.true_and]
          exact h3

theorem insertKey_perm (x : String) :
    ∀ l : List String, (insertKey x l).Perm (x :: l) := by
  intro l
  induction l with
  | nil => exact List.Perm.refl _
  | cons a as ih =>
    by_cases hxa : strLe x a = true
    · simp [insertKey, hxa]
    · simp only [insertKey, hxa, ite_false]
      exact (ih.cons a).trans (List.Perm.swap x a as)

theorem sortKeys_sorted : ∀ l : List String, sortedB (sortKeys l) = true := by
  intro l
  induction l with
  | nil => rfl
  | cons k ks ih => exact insertKey_sorted k _ ih

theorem sortKeys_perm : ∀ l : List String, (sortKeys l).Perm l := by
  intro l
  induction l with
  | nil => exact List.Perm.refl _
  | cons k ks ih => exact (insertKey_perm k (sortKeys ks)).trans (ih.cons k)

/-- A row keyed "B" appearing before a row keyed "A". -/
def rowKeyB : Row := ⟨0, some "On order", some "B"⟩

/-- A row keyed "A" appearing after the row keyed "B". -/
def rowKeyA : Row := ⟨1, some "On order", some "A"⟩

/-- C2 counterexample: with input keys in order B, A the grouper returns
the groups in order A, B (pandas sorts the group keys), not in
first-occurrence order B, A as the claim states. -/
theorem group_order_counterexample :
    (group_by_requester [rowKeyB, rowKeyA]).map (fun gs => gs.map Prod.fst) =
        some ["A", "B"] ∧
      firstOcc ((cleanRows [rowKeyB, rowKeyA]).map keyOf) = ["B", "A"] ∧
      group_by_requester [rowKeyB, rowKeyA] ≠
        group_by_requester_firstOccOrder [rowKeyB, rowKeyA] := by
  decide

/-- C2 amended: for every filtered record set (rows whose key is absent,
empty or whitespace-only having been dropped), the grouper returns one
group per distinct key, in ascending lexicographic key order — a
permutation of the first-occurrence order, not that order itself — and
each group carries exactly the surviving rows bearing its key, in input
order. -/
theorem group_by_requester_sorted_groups (rows : List Row)
    (gs : List (String × List Row))
    (h : group_by_requester rows = some gs) :
    sortedB (gs.map Prod.fst) = true ∧
      (gs.map Prod.fst).Perm (firstOcc ((cleanRows rows).map keyOf)) ∧
      ∀ p ∈ gs, p.2 = (cleanRows rows).filter fun r => keyOf r == p.1 := by
  simp only [group_by_requester] at h
  by_cases hemp : (cleanRows rows).isEmpty
  · rw [if_pos hemp] at h; cases h
  · rw [if_neg hemp] at h
    have hgs : gs = (sortKeys (firstOcc ((cleanRows rows).map keyOf))).map
        fun k => (k, (cleanRows rows).filter fun r => keyOf r == k) :=
      (Option.some.injEq _ _ ▸ h).symm
    subst hgs
    refine ⟨?_, ?_, ?_⟩
    · rw [List.map_map]
      have hid : (Prod.fst ∘ fun k =>
          (k, (cleanRows rows).filter fun r => keyOf r == k)) = id := rfl
      rw [hid, List.map_id]
      exact sortKeys_sorted _
    · rw [List.map_map]
      have hid : (Prod.fst ∘ fun k =>
          (k, (cleanRows rows).filter fun r => keyOf r == k)) = id := rfl
      rw [hid, List.map_id]
      exact sortKeys_perm _
    · intro p hp
      obtain ⟨k, _, hpk⟩ := List.mem_map.1 hp
      rw [← hpk]

/-- Witness for the amended C2 theorem at a concrete two-row input. -/
theorem group_by_requester_sorted_groups_witness :
    sortedB (([("A", [rowKeyA]), ("B", [rowKeyB])].map Prod.fst : List String)) = true ∧
      (([("A", [rowKeyA]), ("B", [rowKeyB])].map Prod.fst :
          List String)).Perm (firstOcc ((cleanRows [rowKeyB, rowKeyA]).map keyOf)) ∧
      ∀ p ∈ [("A", [rowKeyA]), ("B", [rowKeyB])],
        p.2 = (cleanRows [rowKeyB, rowKeyA]).filter fun r => keyOf r == p.1 :=
  group_by_requester_sorted_groups [rowKeyB, rowKeyA]
    [("A", [rowKeyA]), ("B", [rowKeyB])] (by decide)

/-- C9: the status filter selects exactly the rows whose status value is
exactly (case-sensitively, untrimmed) a member of the target status
set, and it is idempotent. -/
theorem filter_data_exact_and_idempotent (rows : List Row) :
    (∀ r, r ∈ filter_data rows ↔ r ∈ rows ∧ statusMatches r = true) ∧
      filter_data (filter_data rows) = filter_data rows := by
  constructor
  · intro r; simp [filter_data, List.mem_filter]
  · simp [filter_data, List.filter_filter]

/-! ### Email resolver (`src/utils/email_resolver.py`) -/

/-- The resolver's mutable state: the Tier-1/Tier-2 mapping
(`email_mapping`, in dict insertion order) and the set of identifiers no
mapping-file tier resolved (`unmapped_users`). -/
structure ResolverState where
  email_mapping : List (String × String)
  unmapped_users : Finset String
deriving DecidableEq

/-- Exact dictionary lookup (`clean_username in self.email_mapping`). -/
def lookupExact (m : List (String × String)) (k : String) : Option String :=
  (m.find? fun p => p.1 == k).map Prod.snd

/-- Tier-2 partial matching: the first mapping entry (in iteration
order) whose key contains, or is contained in, the normalized
identifier. -/
def tier2 (m : List (String × String)) (clean : String) : Option String :=
  (m.find? fun p => pyIn clean p.1 || pyIn p.1 clean).map Prod.snd

/-- Outcome of the two mapping-file tiers only (no state change). -/
def resolve12 (m : List (String × String)) (clean : String) : Option String :=
  match lookupExact m clean with
  | some e => some e
  | none => tier2 m clean

/-- `EmailResolver.resolve_email`: Tier 1 (exact, on the trimmed and
uppercased identifier), then Tier 2 (substring), else record the
original identifier in `unmapped_users` and return `None`. -/
def resolve_email (st : ResolverState) (username : String) :
    Option String × ResolverState :=
  if username = "" then (none, st)
  else
    let clean := pyNorm username
    match lookupExact st.email_mapping clean with
    | some e => (some e, st)
    | none =>
      match tier2 st.email_mapping clean with
      | some e => (some e, st)
      | none => (none, { st with unmapped_users := insert username st.unmapped_users })

/-- Python dict update `d[k] = v`: overwrite in place if the key exists,
else append at the end. -/
def insertAssoc : List (String × String) → String → String → List (String × String)
  | [], k, v => [(k, v)]
  | p :: rest, k, v =>
    if p.1 == k then (k, v) :: rest else p :: insertAssoc rest k v

/-- `EmailResolver.add_manual_mapping`: guarded on a non-empty
identifier, a non-empty address and `'@' in email`; stores the trimmed
address under the normalized identifier and discards the original
identifier from `unmapped_users`. -/
def add_manual_mapping (st : ResolverState) (username email : String) : ResolverState :=
  if username ≠ "" ∧ email ≠ "" ∧ pyIn "@" email = true then
    { email_mapping := insertAssoc st.email_mapping (pyNorm username) (pyStrip email),
      unmapped_users := st.unmapped_users.erase username }
  else st

theorem lookupExact_insertAssoc (k v : String) :
    ∀ m : List (String × String), lookupExact (insertAssoc m k v) k = some v := by
  intro m
  induction m with
  | nil => simp [insertAssoc, lookupExact, List.find?]
  | cons p rest ih =>
    by_cases hpk : p.1 == k
    · simp [insertAssoc, hpk, lookupExact, List.find?]
    · simp only [insertAssoc, hpk, Bool.false_eq_true, ite_false]
      simpa [lookupExact, List.find?, hpk] using ih

theorem insertAssoc_idem (k v : String) :
    ∀ m : List (String × String), insertAssoc (insertAssoc m k v) k v = insertAssoc m k v := by
  intro m
  induction m with
  | nil => simp [insertAssoc]
  | cons p rest ih =>
    by_cases hpk : p.1 == k
    · simp [insertAssoc, hpk]
    · simp [insertAssoc, hpk, ih]

/-- `pyIn "@" e` forces `e` to be non-empty. -/
theorem ne_empty_of_pyIn_at {e : String} (h : pyIn "@" e = true) : e ≠ "" := by
  intro he
  subst he
  simp [pyIn, lHasSub, List.isEmpty] at h

/-- C6: whenever the normalized (trimmed, uppercased) identifier is an
exact key of the mapping (whose keys, per the loader, are never empty),
`resolve_email` returns that key's address — Tier 1, never a Tier-2
substring match — and leaves the state unchanged. -/
theorem resolve_email_tier1_wins (st : ResolverState) (u e : String)
    (hkeys : ∀ p ∈ st.email_mapping, p.1 ≠ "")
    (h : lookupExact st.email_mapping (pyNorm u) = some e) :
    resolve_email st u = (some e, st) := by
  obtain ⟨p, hfind, hsnd⟩ := Option.map_eq_some'.1 h
  have hp := List.find?_some hfind
  simp only [beq_iff_eq] at hp
  have hpm : p ∈ st.email_mapping := List.mem_of_find?_eq_some hfind
  have hu : u ≠ "" := by
    intro hu0
    subst hu0
    have hnorm : pyNorm "" = "" := by decide
    exact hkeys p hpm (hnorm ▸ hp)
  rw [resolve_email, if_neg hu]
  simp only [h]

/-- A resolver whose mapping holds a Tier-2 decoy (iterated first) and
the exact key `"JDOE"`. -/
def stJdoe : ResolverState :=
  ⟨[("AJDOEX", "other@example.com"), ("JDOE", "j.doe@example.com")], ∅⟩

/-- Witness for C6: `resolve("jdoe")` hits the Tier-1 entry `"JDOE"`
case-insensitively and returns its address, not the Tier-2 substring
decoy that precedes it in iteration order. -/
theorem resolve_email_tier1_wins_witness :
    (∀ p ∈ stJdoe.email_mapping, p.1 ≠ "") ∧
      lookupExact stJdoe.email_mapping (pyNorm "jdoe") = some "j.doe@example.com" ∧
      resolve_email stJdoe "jdoe" = (some "j.doe@example.com", stJdoe) :=
  ⟨by decide, by decide,
    resolve_email_tier1_wins stJdoe "jdoe" "j.doe@example.com" (by decide) (by decide)⟩

/-- A resolver with no mappings and no unmapped users. -/
def emptyResolver : ResolverState := ⟨[], ∅⟩

/-- C8 counterexample: with the empty identifier and the valid address
`"a@b"`, `add_manual_mapping` is a no-op (its guard rejects falsy
identifiers), so the subsequent `resolve` returns `None` instead of the
newly added address. -/
theorem add_manual_mapping_empty_id_counterexample :
    pyIn "@" "a@b" = true ∧
      add_manual_mapping emptyResolver "" "a@b" = emptyResolver ∧
      (resolve_email (add_manual_mapping emptyResolver "" "a@b") "").1 = none := by
  decide

/-- C8 amended: for every non-empty identifier and address containing
`'@'`, `add_manual_mapping` followed by `resolve` returns the stored
(whitespace-trimmed) address, afterwards the identifier is not in
`unmapped_users`, and adding the same mapping twice leaves the same
state as adding it once. -/
theorem add_manual_mapping_then_resolve (st : ResolverState) (u e : String)
    (hu : u ≠ "") (he : pyIn "@" e = true) :
    (resolve_email (add_manual_mapping st u e) u).1 = some (pyStrip e) ∧
      u ∉ (resolve_email (add_manual_mapping st u e) u).2.unmapped_users ∧
      add_manual_mapping (add_manual_mapping st u e) u e = add_manual_mapping st u e := by
  have hene : e ≠ "" := ne_empty_of_pyIn_at he
  have hguard : u ≠ "" ∧ e ≠ "" ∧ pyIn "@" e = true := ⟨hu, hene, he⟩
  have hadd : add_manual_mapping st u e =
      { email_mapping := insertAssoc st.email_mapping (pyNorm u) (pyStrip e),
        unmapped_users := st.unmapped_users.erase u } := by
    rw [add_manual_mapping, if_pos hguard]
  have hres : resolve_email (add_manual_mapping st u e) u =
      (some (pyStrip e), add_manual_mapping st u e) := by
    rw [resolve_email, if_neg hu]
    simp only [hadd, lookupExact_insertAssoc]
  refine ⟨by rw [hres], ?_, ?_⟩
  · rw [hres, hadd]
    exact Finset.not_mem_erase u _
  · rw [hadd, add_manual_mapping, if_pos hguard]
    simp only [insertAssoc_idem, Finset.erase_idem]

/-- A resolver that currently lists `"jdoe"` as unmapped. -/
def stUnmappedJdoe : ResolverState := ⟨[], {"jdoe"}⟩

/-- Witness for the amended C8 theorem at a concrete state. -/
theorem add_manual_mapping_then_resolve_witness :
    (resolve_email (add_manual_mapping stUnmappedJdoe "jdoe" "j.doe@example.com") "jdoe").1 =
        some (pyStrip "j.doe@example.com") ∧
      "jdoe" ∉ (resolve_email (add_manual_mapping stUnmappedJdoe "jdoe" "j.doe@example.com")
        "jdoe").2.unmapped_users ∧
      add_manual_mapping (add_manual_mapping stUnmappedJdoe "jdoe" "j.doe@example.com")
          "jdoe" "j.doe@example.com" =
        add_manual_mapping stUnmappedJdoe "jdoe" "j.doe@example.com" :=
  add_manual_mapping_then_resolve stUnmappedJdoe "jdoe" "j.doe@example.com"
    (by decide) (by decide)

/-! ### Outlook service (`src/email/email_service.py`) -/

/-- The Outlook collaborator as seen by `search_contact_email`:
`enabled` is `is_connected and Config.SEARCH_OUTLOOK_CONTACTS and
address_book`; `entries` the Global Address List as (display name,
primary SMTP address) pairs. -/
structure OutlookDir where
  enabled : Bool
  entries : List (String × String)
deriving DecidableEq, Repr

/-- The service-level state: the owned resolver plus the
`resolution_stats` counters (`mapped`, `outlook_resolved`, `failed`;
`fallback_used` is never incremented and is omitted). -/
structure ServiceState where
  resolver : ResolverState
  stats_mapped : Nat
  stats_outlook : Nat
  stats_failed : Nat
deriving DecidableEq

/-- The GAL scan: first entry whose lowercased display name contains
the lowercased identifier. -/
def outlookSearch (dir : OutlookDir) (name : String) : Option String :=
  (dir.entries.find? fun en => pyIn (pyLower name) (pyLower en.1)).map Prod.snd

/-- `OutlookEmailService.search_contact_email`: Tier 0 passthrough for
address-shaped input, then the mapping-file tiers via `resolve_email`
(which records failures in `unmapped_users` before Tier 3 runs), then
the Outlook GAL (Tier 3), else failure. -/
def search_contact_email (dir : OutlookDir) (st : ServiceState) (name : String) :
    Option String × ServiceState :=
  if name = "" then (none, st)
  else if pyIn "@" name && pyIn "." name then (some name, st)
  else
    match resolve_email st.resolver name with
    | (some e, r) => (some e, { st with resolver := r, stats_mapped := st.stats_mapped + 1 })
    | (none, r) =>
      match (if dir.enabled then outlookSearch dir name else none) with
      | some e => (some e, { st with resolver := r, stats_outlook := st.stats_outlook + 1 })
      | none => (none, { st with resolver := r, stats_failed := st.stats_failed + 1 })

/-- A directory that can resolve "Alice" by substring. -/
def dirAlice : OutlookDir := ⟨true, [("Alice Smith", "alice@lamresearch.com")]⟩

/-- A service state with an empty mapping and nothing unmapped yet. -/
def svcEmpty : ServiceState := ⟨emptyResolver, 0, 0, 0⟩

/-- C1 counterexample: "Alice" is resolved by the Tier-3 Outlook lookup,
yet ends up in `unmapped_users` — the mapping-file resolver records the
failure before Tier 3 is attempted, and a Tier-3 hit never removes it. -/
theorem tier3_resolved_still_unmapped_counterexample :
    (search_contact_email dirAlice svcEmpty "Alice").1 = some "alice@lamresearch.com" ∧
      "Alice" ∈ (search_contact_email dirAlice svcEmpty "Alice").2.resolver.unmapped_users := by
  decide

/-- C1 amended: an identifier is added to `UnmappedSet` exactly when it
reaches and fails the mapping-file tiers (Tier 1–2) — even when the
Tier-3 Outlook lookup subsequently resolves it, the identifier remains
in the set. -/
theorem unmapped_iff_mapping_tiers_fail (dir : OutlookDir) (st : ServiceState)
    (name u : String) :
    u ∈ (search_contact_email dir st name).2.resolver.unmapped_users ↔
      u ∈ st.resolver.unmapped_users ∨
        (u = name ∧ name ≠ "" ∧ (pyIn "@" name && pyIn "." name) = false ∧
          resolve12 st.resolver.email_mapping (pyNorm name) = none) := by
  by_cases hn : name = ""
  · subst hn
    rw [search_contact_email, if_pos rfl]
    simp
  · rw [search_contact_email, if_neg hn]
    by_cases hs : (pyIn "@" name && pyIn "." name) = true
    · rw [if_pos hs]
      simp [hs]
    · have hs' : (pyIn "@" name && pyIn "." name) = false := by
        cases hcc : (pyIn "@" name && pyIn "." name) with
        | false => rfl
        | true => exact absurd hcc hs
      rw [if_neg hs, resolve_email, if_neg hn]
      cases hl : lookupExact st.resolver.email_mapping (pyNorm name) with
      | some e => simp [resolve12, hl]
      | none =>
        cases ht : tier2 st.resolver.email_mapping (pyNorm name) with
        | some e => simp [resolve12, hl, ht]
        | none =>
          cases ho : (if dir.enabled then outlookSearch dir name else none) with
          | some e =>
            simp only [ho, resolve12, hl, ht, hn, hs', Finset.mem_insert,
              ne_eq, not_false_iff, and_true, true_and]
            tauto
          | none =>
            simp only [ho, resolve12, hl, ht, hn, hs', Finset.mem_insert,
              ne_eq, not_false_iff, and_true, true_and]
            tauto

/-! ### Dispatch (`send_bulk_emails`, `ERFAutomationService`) -/

/-- The dict handed to `send_bulk_emails`; `toAddr` models the `'to'`
key (`to` is reserved in Lean), `cc` and attachments are absent in both
dispatch paths. -/
structure OutMsg where
  toAddr : String
  subject : String
  body : String
deriving DecidableEq, Repr

/-- One invocation of the Outlook transport (`mail.To`, `mail.Subject`,
the body handed to the template converter). -/
structure TransportCall where
  addr : String
  subject : String
  body : String
deriving DecidableEq, Repr

/-- `OutlookEmailService.send_email`: fails when not connected, fails
without touching the transport when the recipient does not resolve,
otherwise invokes the transport once on the resolved address.  The
returned list records the transport invocations made. -/
def send_email (connected : Bool) (dir : OutlookDir) (transport : TransportCall → Bool)
    (st : ServiceState) (m : OutMsg) : Bool × ServiceState × List TransportCall :=
  if !connected then (false, st, [])
  else
    match search_contact_email dir st m.toAddr with
    | (none, st2) => (false, st2, [])
    | (some addr, st2) =>
      (transport ⟨addr, m.subject, m.body⟩, st2, [⟨addr, m.subject, m.body⟩])

/-- The loop inside `send_bulk_emails`: one `send_email` per message,
counting successes and failures. -/
def sendLoop (connected : Bool) (dir : OutlookDir) (transport : TransportCall → Bool) :
    List OutMsg → ServiceState → Nat × Nat × ServiceState × List TransportCall
  | [], st => (0, 0, st, [])
  | m :: rest, st =>
    let r := send_email connected dir transport st m
    let r2 := sendLoop connected dir transport rest r.2.1
    (if r.1 then r2.1 + 1 else r2.1,
     if r.1 then r2.2.1 else r2.2.1 + 1,
     r2.2.2.1,
     r.2.2 ++ r2.2.2.2)

/-- `resolution_stats` reset at the start of each bulk send. -/
def resetStats (st : ServiceState) : ServiceState :=
  { st with stats_mapped := 0, stats_outlook := 0, stats_failed := 0 }

/-- `OutlookEmailService.send_bulk_emails`. -/
def send_bulk_emails (connected : Bool) (dir : OutlookDir)
    (transport : TransportCall → Bool) (msgs : List OutMsg) (st : ServiceState) :
    Nat × Nat × ServiceState × List TransportCall :=
  sendLoop connected dir transport msgs (resetStats st)

/-- One entry of the list built by
`generate_email_data_with_resolution` (`toAddr` models the `'to'` key,
which holds the requester identifier). -/
structure EmailData where
  toAddr : String
  resolved_email : Option String
  subject : String
  body : String
  item_count : Nat
  email_found : Bool
deriving DecidableEq, Repr

/-- `ERFAutomationService.generate_email_data_with_resolution`: one
entry per requester group, resolving every group's recipient; the
template collaborator supplies subject and body. -/
def generate_email_data (dir : OutlookDir) (tmpl : String → List Row → String × String) :
    List (String × List Row) → ServiceState → List EmailData × ServiceState
  | [], st => ([], st)
  | (req, items) :: rest, st =>
    let r := search_contact_email dir st req
    let t := tmpl req items
    let g := generate_email_data dir tmpl rest r.2
    (⟨req, r.1, t.1, t.2, items.length, r.1.isSome⟩ :: g.1, g.2)

/-- The `to`/`subject`/`body` keys `send_bulk_emails` reads from an
email-data dict. -/
def toMsg (e : EmailData) : OutMsg := ⟨e.toAddr, e.subject, e.body⟩

/-- The live-mode branch of `ERFAutomationService.send_emails`
(`test_mode=False`), past the interactive confirmation modelled by
`confirm`: filters to the resolved groups and bulk-sends them. -/
def send_emails_live (connected : Bool) (dir : OutlookDir)
    (tmpl : String → List Row → String × String) (transport : TransportCall → Bool)
    (groups : List (String × List Row)) (st : ServiceState) (confirm : Bool) :
    Nat × Nat × ServiceState × List TransportCall :=
  if !confirm then (0, 0, (generate_email_data dir tmpl groups st).2, [])
  else
    send_bulk_emails connected dir transport
      (((generate_email_data dir tmpl groups st).1.filter fun e => e.email_found).map toMsg)
      (generate_email_data dir tmpl groups st).2

theorem generate_email_data_length (dir : OutlookDir)
    (tmpl : String → List Row → String × String) :
    ∀ (groups : List (String × List Row)) (st : ServiceState),
      (generate_email_data dir tmpl groups st).1.length = groups.length := by
  intro groups
  induction groups with
  | nil => intro st; rfl
  | cons g rest ih =>
    intro st
    obtain ⟨req, items⟩ := g
    simp [generate_email_data, ih]

theorem send_email_calls (connected : Bool) (dir : OutlookDir)
    (transport : TransportCall → Bool) (st : ServiceState) (m : OutMsg) :
    (send_email connected dir transport st m).2.2 = [] ∨
      ∃ a, (send_email connected dir transport st m).2.2 = [⟨a, m.subject, m.body⟩] := by
  rw [send_email]
  cases connected with
  | false => exact Or.inl rfl
  | true =>
    simp only [Bool.not_true, Bool.false_eq_true, if_false]
    cases hsr : search_contact_email dir st m.toAddr with
    | mk o st2 =>
      cases o with
      | none => exact Or.inl rfl
      | some a => exact Or.inr ⟨a, rfl⟩

theorem sendLoop_counts_and_calls (connected : Bool) (dir : OutlookDir)
    (transport : TransportCall → Bool) :
    ∀ (msgs : List OutMsg) (st : ServiceState),
      (sendLoop connected dir transport msgs st).1 +
          (sendLoop connected dir transport msgs st).2.1 = msgs.length ∧
        ∀ c ∈ (sendLoop connected dir transport msgs st).2.2.2,
          ∃ m ∈ msgs, c.subject = m.subject ∧ c.body = m.body := by
  intro msgs
  induction msgs with
  | nil => intro st; exact ⟨rfl, by intro c hc; cases hc⟩
  | cons m rest ih =>
    intro st
    obtain ⟨ihc, ihm⟩ := ih (send_email connected dir transport st m).2.1
    constructor
    · simp only [sendLoop, List.length_cons]
      cases hr : (send_email connected dir transport st m).1 with
      | true => simp only [hr, if_pos]; omega
      | false => simp only [hr, Bool.false_eq_true, if_false]; omega
    · intro c hc
      simp only [sendLoop, List.mem_append] at hc
      rcases hc with hc | hc
      · rcases send_email_calls connected dir transport st m with hnil | ⟨a, ha⟩
        · rw [hnil] at hc; cases hc
        · rw [ha] at hc
          rcases List.mem_singleton.1 hc with rfl
          exact ⟨m, List.mem_cons_self m rest, rfl, rfl⟩
      · obtain ⟨m2, hm2, hsb⟩ := ihm c hc
        exact ⟨m2, List.mem_cons_of_mem m hm2, hsb⟩

/-- C7: in live-mode dispatch every group's recipient is resolved (one
email-data entry per group), groups whose recipient did not resolve are
excluded before the transport collaborator is invoked (every transport
call carries the message of a resolved entry), and the successful and
failed counts sum to exactly the number of groups whose recipient
resolved. -/
theorem send_emails_live_excludes_unresolved (connected : Bool) (dir : OutlookDir)
    (tmpl : String → List Row → String × String) (transport : TransportCall → Bool)
    (groups : List (String × List Row)) (st : ServiceState) (confirm : Bool)
    (h : confirm = true) :
    (generate_email_data dir tmpl groups st).1.length = groups.length ∧
      (send_emails_live connected dir tmpl transport groups st confirm).1 +
          (send_emails_live connected dir tmpl transport groups st confirm).2.1 =
        ((generate_email_data dir tmpl groups st).1.filter fun e => e.email_found).length ∧
      ∀ c ∈ (send_emails_live connected dir tmpl transport groups st confirm).2.2.2,
        ∃ e ∈ (generate_email_data dir tmpl groups st).1,
          e.email_found = true ∧ c.subject = e.subject ∧ c.body = e.body := by
  subst h
  have hlive : send_emails_live connected dir tmpl transport groups st true =
      sendLoop connected dir transport
        (((generate_email_data dir tmpl groups st).1.filter fun e => e.email_found).map toMsg)
        (resetStats (generate_email_data dir tmpl groups st).2) := by
    rw [send_emails_live, if_neg (by decide), send_bulk_emails]
  refine ⟨generate_email_data_length dir tmpl groups st, ?_, ?_⟩
  · rw [hlive,
      (sendLoop_counts_and_calls connected dir transport _ _).1, List.length_map]
  · intro c hc
    rw [hlive] at hc
    obtain ⟨m, hmm, hsubj, hbody⟩ :=
      (sendLoop_counts_and_calls connected dir transport _ _).2 c hc
    obtain ⟨e, hef, rfl⟩ := List.mem_map.1 hmm
    have hmemf := List.mem_filter.1 hef
    exact ⟨e, hmemf.1, hmemf.2, hsubj, hbody⟩

/-- `demo_subject` built in `manager_demo_mode`. -/
def demoSubject (orig : String) (count : Nat) : String :=
  "[DEMO] ERF Status for " ++ orig ++ " - " ++ toString count ++ " Items"

/-- The 60-character `=` separator line of the demo body. -/
def demoSeparator : String := ⟨List.replicate 60 '='⟩

/-- `demo_body` built in `manager_demo_mode`. -/
def demoBody (e : EmailData) (testAddr : String) : String :=
  "THIS IS A DEMO EMAIL FOR MANAGER PRESENTATION\n" ++
  demoSeparator ++ "\n\n" ++
  "Email Resolution Demo:\n" ++
  "Original Recipient: " ++ e.toAddr ++ "\n" ++
  "Resolved Email: " ++ e.resolved_email.getD "Email not found" ++ "\n" ++
  "Items: " ++ toString e.item_count ++ "\n" ++
  "Demo sent to: " ++ testAddr ++ "\n\n" ++
  e.body ++ "\n\n" ++
  demoSeparator ++ "\n" ++
  "END OF DEMO EMAIL - Original would go to: " ++
    e.resolved_email.getD "Email not found" ++ "\n"

/-- One demo message: addressed to a test address, tagged with the
original intended recipient. -/
def demoMsg (e : EmailData) (t : String) : OutMsg :=
  ⟨t, demoSubject e.toAddr e.item_count, demoBody e t⟩

/-- `demo_email_list`: one message per (group, test address) pair over
the first 5 entries of the generated email data (`email_data[:5]`,
outer loop over groups, inner over test addresses). -/
def demoList (ed : List EmailData) (tests : List String) : List OutMsg :=
  ((ed.take 5).map fun e => tests.map fun t => demoMsg e t).flatten

/-- `ERFAutomationService.manager_demo_mode`, with the interactive
test-address collection and confirmation modelled by `tests` and
`confirm`: resolves every group for reporting, then bulk-sends the demo
messages for the first 5 groups to the test addresses. -/
def manager_demo_mode (connected : Bool) (dir : OutlookDir)
    (tmpl : String → List Row → String × String) (transport : TransportCall → Bool)
    (groups : List (String × List Row)) (st : ServiceState)
    (tests : List String) (confirm : Bool) :
    Nat × Nat × ServiceState × List TransportCall :=
  if (generate_email_data dir tmpl groups st).1.isEmpty then
    (0, 0, (generate_email_data dir tmpl groups st).2, [])
  else if tests.isEmpty then (0, 0, (generate_email_data dir tmpl groups st).2, [])
  else if !confirm then (0, 0, (generate_email_data dir tmpl groups st).2, [])
  else
    send_bulk_emails connected dir transport
      (demoList (generate_email_data dir tmpl groups st).1 tests)
      (generate_email_data dir tmpl groups st).2

/-- When every message is addressed to an address-shaped recipient
(Tier-0 passthrough), the transport is invoked exactly once per
message, on that address. -/
theorem sendLoop_tier0_calls (dir : OutlookDir) (transport : TransportCall → Bool) :
    ∀ (msgs : List OutMsg) (st : ServiceState),
      (∀ m ∈ msgs, pyIn "@" m.toAddr = true ∧ pyIn "." m.toAddr = true) →
      (sendLoop true dir transport msgs st).2.2.2 =
        msgs.map fun m => (⟨m.toAddr, m.subject, m.body⟩ : TransportCall) := by
  intro msgs
  induction msgs with
  | nil => intro st _; rfl
  | cons m rest ih =>
    intro st h
    have hm := h m (List.mem_cons_self m rest)
    have hne : m.toAddr ≠ "" := ne_empty_of_pyIn_at hm.1
    have hsend : send_email true dir transport st m =
        (transport ⟨m.toAddr, m.subject, m.body⟩, st,
          [⟨m.toAddr, m.subject, m.body⟩]) := by
      rw [send_email, if_neg (by decide), search_contact_email, if_neg hne,
        if_pos (by rw [hm.1, hm.2]; rfl)]
    simp only [sendLoop, hsend, List.map_cons]
    rw [ih st fun m2 hm2 => h m2 (List.mem_cons_of_mem m hm2)]
    rfl

theorem length_flatten_const {α β : Type} (g : α → List β) (n : Nat)
    (h : ∀ a, (g a).length = n) :
    ∀ l : List α, ((l.map g).flatten).length = l.length * n := by
  intro l
  induction l with
  | nil => simp
  | cons a as ih =>
    simp only [List.map_cons, List.flatten_cons, List.length_append, ih, h a,
      List.length_cons]
    ring

/-- C10: in demo mode every group's recipient is resolved for reporting
(one email-data entry per group), but the transport collaborator is
invoked exactly once per (group, test address) pair over only the first
5 groups of the generated email data — hence at most `5 * |tests|`
messages. -/
theorem manager_demo_mode_first5 (dir : OutlookDir)
    (tmpl : String → List Row → String × String) (transport : TransportCall → Bool)
    (groups : List (String × List Row)) (st : ServiceState)
    (tests : List String) (confirm : Bool)
    (hconf : confirm = true)
    (htests : tests ≠ [])
    (hshape : ∀ t ∈ tests, pyIn "@" t = true ∧ pyIn "." t = true) :
    (generate_email_data dir tmpl groups st).1.length = groups.length ∧
      (manager_demo_mode true dir tmpl transport groups st tests confirm).2.2.2 =
        (demoList (generate_email_data dir tmpl groups st).1 tests).map
          (fun m => (⟨m.toAddr, m.subject, m.body⟩ : TransportCall)) ∧
      (manager_demo_mode true dir tmpl transport groups st tests confirm).2.2.2.length =
        min 5 (generate_email_data dir tmpl groups st).1.length * tests.length ∧
      (manager_demo_mode true dir tmpl transport groups st tests confirm).2.2.2.length ≤
        5 * tests.length := by
  subst hconf
  have hlen : ∀ ed : List EmailData,
      (demoList ed tests).length = min 5 ed.length * tests.length := by
    intro ed
    rw [demoList,
      length_flatten_const (fun e => tests.map fun t => demoMsg e t) tests.length
        (fun e => List.length_map _ _) (ed.take 5),
      List.length_take]
  have hcalls :
      (manager_demo_mode true dir tmpl transport groups st tests true).2.2.2 =
        (demoList (generate_email_data dir tmpl groups st).1 tests).map
          (fun m => (⟨m.toAddr, m.subject, m.body⟩ : TransportCall)) := by
    by_cases hemp : (generate_email_data dir tmpl groups st).1.isEmpty = true
    · rw [manager_demo_mode, if_pos hemp]
      rw [List.isEmpty_iff.1 hemp]
      rfl
    · rw [manager_demo_mode, if_neg hemp,
        if_neg (by simpa [List.isEmpty_iff] using htests), if_neg (by decide),
        send_bulk_emails]
      refine sendLoop_tier0_calls dir transport _ _ ?_
      intro m hmm
      rw [demoList] at hmm
      obtain ⟨inner, hin, hm2⟩ := List.mem_flatten.1 hmm
      obtain ⟨e, _, rfl⟩ := List.mem_map.1 hin
      obtain ⟨t, ht, rfl⟩ := List.mem_map.1 hm2
      exact hshape t ht
  refine ⟨generate_email_data_length dir tmpl groups st, hcalls, ?_, ?_⟩
  · rw [hcalls, List.length_map, hlen]
  · rw [hcalls, List.length_map, hlen]
    exact Nat.mul_le_mul_right _ (Nat.min_le_left 5 _)

/-- A constant template collaborator for concrete runs. -/
def tmplWit : String → List Row → String × String :=
  fun req _ => ("ERF Status Update - " ++ req, "items table")

/-- A transport that accepts every message. -/
def transportAlways : TransportCall → Bool := fun _ => true

/-- Two groups: "Alice" (resolvable through the GAL of `dirAlice`) and
"Bob" (unresolvable). -/
def groupsPair : List (String × List Row) := [("Alice", [rowKeyA]), ("Bob", [rowKeyB])]

/-- An Outlook directory that is disabled. -/
def dirOff : OutlookDir := ⟨false, []⟩

/-- Six requester groups, more than the demo cap of 5. -/
def groupsSix : List (String × List Row) :=
  [("A", []), ("B", []), ("C", []), ("D", []), ("E", []), ("F", [])]

/-- One operator-supplied test address. -/
def testsOne : List String := ["manager@lamresearch.com"]

/-- Witness for the C7 theorem at a concrete live-mode run. -/
theorem send_emails_live_excludes_unresolved_witness :
    (generate_email_data dirAlice tmplWit groupsPair svcEmpty).1.length = groupsPair.length ∧
      (send_emails_live true dirAlice tmplWit transportAlways groupsPair svcEmpty true).1 +
          (send_emails_live true dirAlice tmplWit transportAlways groupsPair svcEmpty true).2.1 =
        ((generate_email_data dirAlice tmplWit groupsPair svcEmpty).1.filter
          fun e => e.email_found).length ∧
      ∀ c ∈ (send_emails_live true dirAlice tmplWit transportAlways groupsPair
          svcEmpty true).2.2.2,
        ∃ e ∈ (generate_email_data dirAlice tmplWit groupsPair svcEmpty).1,
          e.email_found = true ∧ c.subject = e.subject ∧ c.body = e.body :=
  send_emails_live_excludes_unresolved true dirAlice tmplWit transportAlways
    groupsPair svcEmpty true rfl

/-- Witness for the C10 theorem at a concrete demo-mode run with six
groups and one test address. -/
theorem manager_demo_mode_first5_witness :
    (generate_email_data dirOff tmplWit groupsSix svcEmpty).1.length = groupsSix.length ∧
      (manager_demo_mode true dirOff tmplWit transportAlways groupsSix svcEmpty
          testsOne true).2.2.2 =
        (demoList (generate_email_data dirOff tmplWit groupsSix svcEmpty).1 testsOne).map
          (fun m => (⟨m.toAddr, m.subject, m.body⟩ : TransportCall)) ∧
      (manager_demo_mode true dirOff tmplWit transportAlways groupsSix svcEmpty
          testsOne true).2.2.2.length =
        min 5 (generate_email_data dirOff tmplWit groupsSix svcEmpty).1.length *
          testsOne.length ∧
      (manager_demo_mode true dirOff tmplWit transportAlways groupsSix svcEmpty
          testsOne true).2.2.2.length ≤ 5 * testsOne.length :=
  manager_demo_mode_first5 dirOff tmplWit transportAlways groupsSix svcEmpty
    testsOne true rfl (by decide) (by decide)
